import Mathlib

/-!
Shallow embedding of `perfkitbenchmarker/timed_interval.py`.

The Python class `TimedInterval` holds a name and two optional floating-point
timestamps.  `Measure` is a `@contextmanager`: it writes `start_time`, yields
to the wrapped block, and writes `stop_time` after the yield.  The yield is
not protected by `try/finally`, so when the wrapped block raises, the line
writing `stop_time` is skipped and the exception propagates.  `GenerateSamples`
reads the two timestamps and builds a list of sample records.

Timestamps are modelled as rationals (exact arithmetic standing in for the
clock readings); clock values are explicit parameters of each operation.
-/

/-- Modelled from the spec: the measurement record type (`sample.Sample`,
whose module is not part of this repository slice) is "a triple of
(label: string, value: number, unit: string)". -/
structure Sample where
  label : String
  value : ℚ
  unit : String
deriving DecidableEq

/-- Errors a Python execution can surface: a `TypeError` (as raised by
`None - float`), or an arbitrary error raised by the wrapped block,
identified by a code. -/
inductive PyError where
  | typeError
  | user (code : ℕ)
deriving DecidableEq

/-- The state of a `TimedInterval` instance: the three attributes set by
`__init__` (`self._name`, `self._start_time = None`, `self._stop_time = None`). -/
structure TimedInterval where
  _name : String
  _start_time : Option ℚ
  _stop_time : Option ℚ
deriving DecidableEq

/-- `TimedInterval.__init__(self, name)`: both timestamps start unset. -/
def TimedInterval.init (name : String) : TimedInterval :=
  { _name := name, _start_time := none, _stop_time := none }

/-- The read-only property `name`. -/
def TimedInterval.name (s : TimedInterval) : String :=
  s._name

/-- The read-only property `start_time`. -/
def TimedInterval.start_time (s : TimedInterval) : Option ℚ :=
  s._start_time

/-- The read-only property `stop_time`. -/
def TimedInterval.stop_time (s : TimedInterval) : Option ℚ :=
  s._stop_time

/-- `TimedInterval.Measure` as a state transformer.  `clockStart` and
`clockStop` are the two `time.time()` readings; `block` is the outcome of the
wrapped work.  The context manager body is
`self._start_time = time.time(); yield; self._stop_time = time.time()`:
the start write always happens, the stop write happens only when the block
returns normally, and an error from the block propagates unchanged. -/
def TimedInterval.Measure (s : TimedInterval) (clockStart : ℚ)
    (block : Except PyError Unit) (clockStop : ℚ) :
    Except PyError Unit × TimedInterval :=
  let s1 : TimedInterval := { s with _start_time := some clockStart }
  match block with
  | Except.ok _ => (Except.ok (), { s1 with _stop_time := some clockStop })
  | Except.error e => (Except.error e, s1)

/-- `TimedInterval.GenerateSamples(self, include_timestamps)`.  Returned as a
pair of the result and the (unchanged) instance state, since the Python method
only reads `self`.  The body mirrors the source: if `self._stop_time` is not
`None`, compute `elapsed_time = self._stop_time - self._start_time` (which
raises `TypeError` if `self._start_time` were `None`) and append the Runtime
sample, then the two timestamp samples when requested. -/
def TimedInterval.GenerateSamples (s : TimedInterval) (include_timestamps : Bool) :
    Except PyError (List Sample) × TimedInterval :=
  match s._stop_time with
  | none => (Except.ok [], s)
  | some st =>
    match s._start_time with
    | none => (Except.error PyError.typeError, s)
    | some beg =>
      let elapsed_time : ℚ := st - beg
      let samples : List Sample :=
        [{ label := s._name ++ " Runtime", value := elapsed_time, unit := "seconds" }]
      let samples : List Sample :=
        if include_timestamps then
          samples ++
            [{ label := s._name ++ " Start Timestamp", value := beg, unit := "seconds" },
             { label := s._name ++ " Stop Timestamp", value := st, unit := "seconds" }]
        else samples
      (Except.ok samples, s)

/-- One use of the `with interval.Measure():` scope, as seen from outside:
either the block completed normally between the two clock readings, or it
raised after the first reading. -/
inductive MeasureEvent where
  | ok (tStart tStop : ℚ)
  | fail (tStart : ℚ) (code : ℕ)
deriving DecidableEq

/-- Apply one scope use to the instance state, through `Measure`. -/
def TimedInterval.applyEvent (s : TimedInterval) : MeasureEvent → TimedInterval
  | MeasureEvent.ok t1 t2 => (s.Measure t1 (Except.ok ()) t2).2
  | MeasureEvent.fail t1 c => (s.Measure t1 (Except.error (PyError.user c)) t1).2

/-- Run a sequence of scope uses from a given state.  The states reachable
from `TimedInterval.init name` by some event list are exactly the states the
Python API can produce (`GenerateSamples` and the accessors do not mutate). -/
def TimedInterval.run (s : TimedInterval) : List MeasureEvent → TimedInterval
  | [] => s
  | e :: es => TimedInterval.run (s.applyEvent e) es

/-- Whether an event is a normally completed scope. -/
def MeasureEvent.isOk : MeasureEvent → Bool
  | MeasureEvent.ok _ _ => true
  | MeasureEvent.fail _ _ => false

/-- Whether some scope in the trace completed normally. -/
def completedOnce (events : List MeasureEvent) : Bool :=
  events.any MeasureEvent.isOk

/-- The spec's informal state machine: Unmeasured, Measuring, Measured. -/
inductive SpecState where
  | Unmeasured
  | Measuring
  | Measured
deriving DecidableEq

/-- The spec's state machine, following the spec's words: start Unmeasured;
entering the scope moves to Measuring; normal exit moves to Measured;
re-entering moves back to Measuring.  Hence the state after a trace is
determined by its last event: a normally completed scope ends in Measured,
a scope that was entered but raised ends in Measuring. -/
def specState : List MeasureEvent → SpecState
  | [] => SpecState.Unmeasured
  | [MeasureEvent.ok _ _] => SpecState.Measured
  | [MeasureEvent.fail _ _] => SpecState.Measuring
  | _ :: e :: es => specState (e :: es)

theorem init_start (name : String) :
    (TimedInterval.init name)._start_time = none :=
  rfl

theorem init_stop (name : String) :
    (TimedInterval.init name)._stop_time = none :=
  rfl

theorem applyEvent_name (s : TimedInterval) (e : MeasureEvent) :
    (s.applyEvent e)._name = s._name := by
  cases e <;> rfl

theorem run_name (s : TimedInterval) (events : List MeasureEvent) :
    (s.run events)._name = s._name := by
  induction events generalizing s with
  | nil => rfl
  | cons e es ih => rw [TimedInterval.run, ih, applyEvent_name]

theorem applyEvent_start_isSome (s : TimedInterval) (e : MeasureEvent) :
    ((s.applyEvent e)._start_time).isSome = true := by
  cases e <;> rfl

theorem run_stop_isSome (s : TimedInterval) (events : List MeasureEvent) :
    ((s.run events)._stop_time).isSome =
      (completedOnce events || s._stop_time.isSome) := by
  induction events generalizing s with
  | nil => simp [TimedInterval.run, completedOnce]
  | cons e es ih =>
    cases e with
    | ok t1 t2 =>
      rw [TimedInterval.run, ih]
      simp [TimedInterval.applyEvent, TimedInterval.Measure, completedOnce,
        MeasureEvent.isOk]
    | fail t1 c =>
      rw [TimedInterval.run, ih]
      simp [TimedInterval.applyEvent, TimedInterval.Measure, completedOnce,
        MeasureEvent.isOk]

theorem run_start_isSome (s : TimedInterval) (events : List MeasureEvent) :
    ((s.run events)._start_time).isSome =
      (!events.isEmpty || s._start_time.isSome) := by
  induction events generalizing s with
  | nil => simp [TimedInterval.run]
  | cons e es ih =>
    rw [TimedInterval.run, ih]
    cases es with
    | nil => simp [TimedInterval.run, applyEvent_start_isSome]
    | cons f fs => simp

theorem GenerateSamples_of_both_set (s : TimedInterval) (st beg : ℚ) (b : Bool)
    (hst : s._stop_time = some st) (hbeg : s._start_time = some beg) :
    (s.GenerateSamples b).1 =
      Except.ok ({ label := s._name ++ " Runtime", value := st - beg,
                   unit := "seconds" } ::
        (if b then
          [{ label := s._name ++ " Start Timestamp", value := beg, unit := "seconds" },
           { label := s._name ++ " Stop Timestamp", value := st, unit := "seconds" }]
         else [])) := by
  cases b <;> simp [TimedInterval.GenerateSamples, hst, hbeg]

theorem GenerateSamples_of_stop_none (s : TimedInterval) (b : Bool)
    (hst : s._stop_time = none) :
    (s.GenerateSamples b).1 = Except.ok [] := by
  simp [TimedInterval.GenerateSamples, hst]

/-- C1: the claim states that when the wrapped block raises inside `Measure`,
`stop_time` is set before the error propagates.  Counterexample: on a fresh
interval, a failing block propagates its error but leaves `stop_time` unset,
because the stop write sits after the yield with no try/finally. -/
theorem C1_counterexample :
    ((TimedInterval.init "Disk").Measure 0 (Except.error (PyError.user 7)) 1).1 =
      Except.error (PyError.user 7) ∧
    ((TimedInterval.init "Disk").Measure 0
      (Except.error (PyError.user 7)) 1).2._stop_time = none :=
  ⟨rfl, rfl⟩

/-- C1 (amended): when the wrapped block raises, the error propagates to the
caller unchanged, `start_time` is updated to the entry clock reading, and
`stop_time` keeps whatever value it had before the call (it is NOT set). -/
theorem C1_error_path (s : TimedInterval) (t1 t2 : ℚ) (e : PyError) :
    (s.Measure t1 (Except.error e) t2).1 = Except.error e ∧
    (s.Measure t1 (Except.error e) t2).2._start_time = some t1 ∧
    (s.Measure t1 (Except.error e) t2).2._stop_time = s._stop_time :=
  ⟨rfl, rfl, rfl⟩

/-- C2: the claim states `GenerateSamples` yields full output ONLY in the
Measured state (most recent scope completed normally).  Counterexample: after
a completed scope followed by a failing re-entry the spec state machine is in
Measuring, yet `GenerateSamples` yields a full (non-empty) output. -/
theorem C2_counterexample :
    specState [MeasureEvent.ok 0 1, MeasureEvent.fail 2 5] = SpecState.Measuring ∧
    (((TimedInterval.init "Disk").run
        [MeasureEvent.ok 0 1, MeasureEvent.fail 2 5]).GenerateSamples false).1 =
      Except.ok [{ label := "Disk Runtime", value := -1, unit := "seconds" }] := by
  refine ⟨rfl, ?_⟩
  rw [GenerateSamples_of_both_set _ 1 2 false rfl rfl]
  norm_num [run_name, TimedInterval.init]
  rfl

/-- C2 (amended): `GenerateSamples` yields an empty sequence exactly when no
scope in the history has ever completed normally; once some scope has
completed, it yields non-empty output even if the most recent scope was
entered and failed (state Measuring). -/
theorem C2_empty_iff (name : String) (events : List MeasureEvent) (b : Bool) :
    (((TimedInterval.init name).run events).GenerateSamples b).1 =
      Except.ok ([] : List Sample) ↔ completedOnce events = false := by
  have hstop := run_stop_isSome (TimedInterval.init name) events
  rw [init_stop, Option.isSome_none, Bool.or_false] at hstop
  have hstart := run_start_isSome (TimedInterval.init name) events
  rw [init_start, Option.isSome_none, Bool.or_false] at hstart
  constructor
  · intro h
    by_contra hc
    rw [Bool.not_eq_false] at hc
    rw [hc] at hstop
    obtain ⟨st, hst⟩ := Option.isSome_iff_exists.mp hstop
    have hne : events.isEmpty = false := by
      cases events with
      | nil => simp [completedOnce] at hc
      | cons _ _ => rfl
    rw [hne] at hstart
    simp at hstart
    obtain ⟨beg, hbeg⟩ := Option.isSome_iff_exists.mp hstart
    rw [GenerateSamples_of_both_set _ st beg b hst hbeg] at h
    simp at h
  · intro h
    apply GenerateSamples_of_stop_none
    rw [h] at hstop
    cases hcase : ((TimedInterval.init name).run events)._stop_time with
    | none => rfl
    | some v => rw [hcase] at hstop; simp at hstop

/-- Witness for C2: concrete instance of the amended equivalence. -/
theorem C2_witness :
    ((((TimedInterval.init "Disk").run
        [MeasureEvent.fail 0 1]).GenerateSamples true).1 =
      Except.ok ([] : List Sample)) ↔
      completedOnce [MeasureEvent.fail 0 1] = false :=
  C2_empty_iff "Disk" [MeasureEvent.fail 0 1] true

/-- C3: the claim states that re-entering `Measure` overwrites BOTH timestamps
with the new bracket and `GenerateSamples` never mixes two brackets.
Counterexample: a completed bracket (start 0, stop 1) followed by a failing
re-entry at 5 leaves `start_time` from the new bracket but `stop_time` from
the old one, and `GenerateSamples` reports their mixture (value 1 - 5 = -4). -/
theorem C3_counterexample :
    ((TimedInterval.init "Disk").run
        [MeasureEvent.ok 0 1, MeasureEvent.fail 5 2])._start_time = some 5 ∧
    ((TimedInterval.init "Disk").run
        [MeasureEvent.ok 0 1, MeasureEvent.fail 5 2])._stop_time = some 1 ∧
    (((TimedInterval.init "Disk").run
        [MeasureEvent.ok 0 1, MeasureEvent.fail 5 2]).GenerateSamples false).1 =
      Except.ok [{ label := "Disk Runtime", value := -4, unit := "seconds" }] := by
  refine ⟨rfl, rfl, ?_⟩
  rw [GenerateSamples_of_both_set _ 1 5 false rfl rfl]
  norm_num [run_name, TimedInterval.init]
  rfl

/-- C3 (amended): re-entering `Measure` overwrites `start_time` on entry and,
when the new bracket completes normally, overwrites `stop_time` on exit; every
subsequent `GenerateSamples` then reflects only the most recent bracket.  (If
the new bracket fails, `stop_time` keeps its old value and the outputs mix the
two brackets.) -/
theorem C3_overwrite_on_normal_completion (s : TimedInterval) (t1 t2 : ℚ) :
    (s.Measure t1 (Except.ok ()) t2).2._start_time = some t1 ∧
    (s.Measure t1 (Except.ok ()) t2).2._stop_time = some t2 ∧
    ∀ b, ((s.Measure t1 (Except.ok ()) t2).2.GenerateSamples b).1 =
      Except.ok ({ label := s._name ++ " Runtime", value := t2 - t1,
                   unit := "seconds" } ::
        (if b then
          [{ label := s._name ++ " Start Timestamp", value := t1, unit := "seconds" },
           { label := s._name ++ " Stop Timestamp", value := t2, unit := "seconds" }]
         else [])) := by
  refine ⟨rfl, rfl, fun b => ?_⟩
  exact GenerateSamples_of_both_set _ t2 t1 b rfl rfl

/-- C4: across every operation sequence, `stop_time` is set if and only if some
scope has completed normally, and `stop_time` is never set while `start_time`
is unset. -/
theorem C4_invariant (name : String) (events : List MeasureEvent) :
    (((TimedInterval.init name).run events)._stop_time).isSome =
      completedOnce events ∧
    ((((TimedInterval.init name).run events)._stop_time).isSome &&
      !(((TimedInterval.init name).run events)._start_time).isSome) = false := by
  have hstop := run_stop_isSome (TimedInterval.init name) events
  rw [init_stop, Option.isSome_none, Bool.or_false] at hstop
  have hstart := run_start_isSome (TimedInterval.init name) events
  rw [init_start, Option.isSome_none, Bool.or_false] at hstart
  refine ⟨hstop, ?_⟩
  rw [hstop, hstart]
  cases events with
  | nil => simp [completedOnce]
  | cons e es => simp

/-- C5: after `Measure` completes normally under a non-decreasing clock,
`start_time <= stop_time`, and `GenerateSamples false` returns exactly one
record labelled `"<name> Runtime"` with value `stop_time - start_time` and
unit `"seconds"`. -/
theorem C5_runtime_sample (s : TimedInterval) (t1 t2 : ℚ) (h : t1 ≤ t2) :
    ∃ a b, (s.Measure t1 (Except.ok ()) t2).2._start_time = some a ∧
      (s.Measure t1 (Except.ok ()) t2).2._stop_time = some b ∧
      a ≤ b ∧
      ((s.Measure t1 (Except.ok ()) t2).2.GenerateSamples false).1 =
        Except.ok [{ label := s._name ++ " Runtime", value := b - a,
                     unit := "seconds" }] := by
  refine ⟨t1, t2, rfl, rfl, h, ?_⟩
  exact GenerateSamples_of_both_set (s.Measure t1 (Except.ok ()) t2).2 t2 t1 false rfl rfl

/-- Witness for C5: the clock hypothesis holds at 100 ≤ 205/2, and the
conclusion follows at that concrete input. -/
theorem C5_witness :
    (100 : ℚ) ≤ 205/2 ∧
    ∃ a b, ((TimedInterval.init "Disk").Measure 100
        (Except.ok ()) (205/2)).2._start_time = some a ∧
      ((TimedInterval.init "Disk").Measure 100
        (Except.ok ()) (205/2)).2._stop_time = some b ∧
      a ≤ b ∧
      (((TimedInterval.init "Disk").Measure 100
          (Except.ok ()) (205/2)).2.GenerateSamples false).1 =
        Except.ok [{ label := (TimedInterval.init "Disk")._name ++ " Runtime",
                     value := b - a, unit := "seconds" }] :=
  ⟨by norm_num,
   C5_runtime_sample (TimedInterval.init "Disk") 100 (205/2) (by norm_num)⟩

/-- C6: after `Measure` completes normally, `GenerateSamples true` returns
exactly three records, in order: Runtime (elapsed), Start Timestamp
(= `start_time`), Stop Timestamp (= `stop_time`), all with unit `"seconds"`. -/
theorem C6_three_records (s : TimedInterval) (t1 t2 : ℚ) :
    ((s.Measure t1 (Except.ok ()) t2).2.GenerateSamples true).1 =
      Except.ok
        [{ label := s._name ++ " Runtime", value := t2 - t1, unit := "seconds" },
         { label := s._name ++ " Start Timestamp", value := t1, unit := "seconds" },
         { label := s._name ++ " Stop Timestamp", value := t2, unit := "seconds" }] := by
  have h := GenerateSamples_of_both_set
    (s.Measure t1 (Except.ok ()) t2).2 t2 t1 true rfl rfl
  simpa using h

/-- C7: on every reachable state, if `stop_time` is unset then
`GenerateSamples` returns an empty sequence for either flag value, and
`GenerateSamples` never raises (it always returns an `ok` result). -/
theorem C7_total_and_empty_when_unset (name : String)
    (events : List MeasureEvent) (b : Bool) :
    (((TimedInterval.init name).run events)._stop_time = none →
      (((TimedInterval.init name).run events).GenerateSamples b).1 =
        Except.ok []) ∧
    ∃ l, (((TimedInterval.init name).run events).GenerateSamples b).1 =
      Except.ok l := by
  constructor
  · exact GenerateSamples_of_stop_none _ b
  · cases hst : ((TimedInterval.init name).run events)._stop_time with
    | none => exact ⟨[], GenerateSamples_of_stop_none _ b hst⟩
    | some st =>
      have hstop := run_stop_isSome (TimedInterval.init name) events
      rw [init_stop, Option.isSome_none, Bool.or_false, hst] at hstop
      have hne : events.isEmpty = false := by
        cases events with
        | nil => simp [completedOnce] at hstop
        | cons _ _ => rfl
      have hstart := run_start_isSome (TimedInterval.init name) events
      rw [init_start, Option.isSome_none, Bool.or_false, hne] at hstart
      simp at hstart
      obtain ⟨beg, hbeg⟩ := Option.isSome_iff_exists.mp hstart
      exact ⟨_, GenerateSamples_of_both_set _ st beg b hst hbeg⟩

/-- Witness for C7: concrete instance on the fresh interval, where the
implication's hypothesis (`stop_time = none`) actually holds. -/
theorem C7_witness :
    ((((TimedInterval.init "Disk").run [])._stop_time = none →
      (((TimedInterval.init "Disk").run []).GenerateSamples true).1 =
        Except.ok []) ∧
    ∃ l, (((TimedInterval.init "Disk").run []).GenerateSamples true).1 =
      Except.ok l) ∧
    ((TimedInterval.init "Disk").run [])._stop_time = none :=
  ⟨C7_total_and_empty_when_unset "Disk" [] true, rfl⟩

/-- C8: a freshly constructed interval has both timestamps unset, its `name`
accessor returns the construction-time name, and `GenerateSamples` returns an
empty sequence for either flag value. -/
theorem C8_fresh_state (name : String) (b : Bool) :
    (TimedInterval.init name).start_time = none ∧
    (TimedInterval.init name).stop_time = none ∧
    (TimedInterval.init name).name = name ∧
    ((TimedInterval.init name).GenerateSamples b).1 = Except.ok [] :=
  ⟨rfl, rfl, rfl, GenerateSamples_of_stop_none _ b rfl⟩

/-- C9: `GenerateSamples` leaves the instance state (hence the `name`,
`start_time`, `stop_time` accessors) unchanged, and a second call on the
returned state with the same flag gives the same result (idempotent read). -/
theorem C9_read_only (s : TimedInterval) (b : Bool) :
    (s.GenerateSamples b).2 = s ∧
    ((s.GenerateSamples b).2).GenerateSamples b = s.GenerateSamples b ∧
    (s.GenerateSamples b).2.name = s.name ∧
    (s.GenerateSamples b).2.start_time = s.start_time ∧
    (s.GenerateSamples b).2.stop_time = s.stop_time := by
  have hstate : (s.GenerateSamples b).2 = s := by
    rcases s with ⟨n, ost, ospt⟩
    cases ospt with
    | none => rfl
    | some st =>
      cases ost with
      | none => rfl
      | some beg => cases b <;> rfl
  exact ⟨hstate, by rw [hstate], by rw [hstate], by rw [hstate], by rw [hstate]⟩

/-- C10: when the wrapped block raises, `start_time` is updated to the new
entry's clock reading while `stop_time` keeps its previous value; after a
successful measurement followed by a failing re-entry the error propagates,
`GenerateSamples` yields a non-empty output built from the new `start_time`
and the stale `stop_time`, and when the clock has advanced past the old stop
the reported elapsed value is negative. -/
theorem C10_stale_stop (name : String) (t1 t2 t3 : ℚ) (c : ℕ) (h : t2 < t3) :
    (((TimedInterval.init name).Measure t1 (Except.ok ()) t2).2.Measure t3
        (Except.error (PyError.user c)) t3).1 = Except.error (PyError.user c) ∧
    (((TimedInterval.init name).Measure t1 (Except.ok ()) t2).2.Measure t3
        (Except.error (PyError.user c)) t3).2._start_time = some t3 ∧
    (((TimedInterval.init name).Measure t1 (Except.ok ()) t2).2.Measure t3
        (Except.error (PyError.user c)) t3).2._stop_time = some t2 ∧
    ((((TimedInterval.init name).Measure t1 (Except.ok ()) t2).2.Measure t3
        (Except.error (PyError.user c)) t3).2.GenerateSamples false).1 =
      Except.ok [{ label := name ++ " Runtime", value := t2 - t3,
                   unit := "seconds" }] ∧
    t2 - t3 < 0 := by
  refine ⟨rfl, rfl, rfl, ?_, by linarith⟩
  exact GenerateSamples_of_both_set _ t2 t3 false rfl rfl

/-- Witness for C10: concrete run with clock readings 0, 1 then failing
re-entry at 5; the reported Runtime value is 1 - 5 = -4 < 0. -/
theorem C10_witness :
    (1 : ℚ) < 5 ∧
    ((((TimedInterval.init "Disk").Measure 0 (Except.ok ()) 1).2.Measure 5
        (Except.error (PyError.user 7)) 5).1 = Except.error (PyError.user 7) ∧
    (((TimedInterval.init "Disk").Measure 0 (Except.ok ()) 1).2.Measure 5
        (Except.error (PyError.user 7)) 5).2._start_time = some 5 ∧
    (((TimedInterval.init "Disk").Measure 0 (Except.ok ()) 1).2.Measure 5
        (Except.error (PyError.user 7)) 5).2._stop_time = some 1 ∧
    ((((TimedInterval.init "Disk").Measure 0 (Except.ok ()) 1).2.Measure 5
        (Except.error (PyError.user 7)) 5).2.GenerateSamples false).1 =
      Except.ok [{ label := "Disk" ++ " Runtime", value := 1 - 5,
                   unit := "seconds" }] ∧
    (1 : ℚ) - 5 < 0) :=
  ⟨by norm_num, C10_stale_stop "Disk" 0 1 5 7 (by norm_num)⟩
